import Mathlib

/-!
Verification of the FCM client library (`src/client/mod.rs`).

The public facade (`FcmClientError`, the `is_access_token_missing_even_if_server_requests_completed`
predicate, `FcmClientBuilder` and its configuration methods, `FcmClient`) is embedded directly
from `src/src/client/mod.rs`.  The internal request core (`internal_client.rs`: key-path
resolution, the Retry-After parsing and the bounded retry loop) is not part of the sources and
is modelled from the specification; those definitions carry a doc comment starting with
`Modelled from the spec:`.

Conventions of the embedding:
* Rust `PathBuf` is a `String`; `std::time::Duration` for the request timeout is an opaque `Nat`.
* The OAuth backend is abstract: a type `T` of backend errors (Rust trait `OauthError`) together
  with, where a claim needs it, the backend predicate
  `is_access_token_missing_even_if_server_requests_completed : T → Bool`
  (Rust trait `OauthErrorAccessTokenStatus`).
* Fallible Rust functions return `Except`.
-/

namespace FcmRust

/-- Opaque embedding of `chrono::ParseError` (the payload of the
`RetryAfterHttpHeaderInvalid` variant); only its identity matters to the claims. -/
structure ChronoParseError where
  kind : String
deriving DecidableEq

/-- Embedding of `FcmClientError<T>` from `src/src/client/mod.rs` lines 26-41.
`T` is the OAuth backend error type.  The `reqwest::Error` and `dotenvy::Error`
payloads are opaque and kept as strings. -/
inductive FcmClientError (T : Type) where
  | Reqwest (message : String)
  | Oauth (error : T)
  | Dotenvy (message : String)
  | RetryAfterHttpHeaderIsNotString
  | RetryAfterHttpHeaderInvalid (error : ChronoParseError) (value : String)
deriving DecidableEq

/-- Embedding of `FcmClientError::is_access_token_missing_even_if_server_requests_completed`
(`mod.rs` lines 43-53).  The Rust method is available when `T : OauthErrorAccessTokenStatus`;
the trait method is passed explicitly as `backend_predicate`. -/
def FcmClientError.is_access_token_missing_even_if_server_requests_completed
    {T : Type} (backend_predicate : T → Bool) : FcmClientError T → Bool
  | .Oauth error => backend_predicate error
  | _ => false

/-- Embedding of `FcmClientBuilder<T>` (`mod.rs` lines 80-86); the `PhantomData`
marker has no runtime content and is dropped. -/
structure FcmClientBuilder where
  service_account_key_json_path : Option String
  token_cache_json_path : Option String
  fcm_request_timeout : Option Nat
deriving DecidableEq

/-- Embedding of `impl Default for FcmClientBuilder` (`mod.rs` lines 88-97). -/
def FcmClientBuilder.default : FcmClientBuilder where
  service_account_key_json_path := none
  token_cache_json_path := none
  fcm_request_timeout := none

/-- Embedding of `FcmClientBuilder::new` (`mod.rs` lines 100-102). -/
def FcmClientBuilder.new : FcmClientBuilder :=
  FcmClientBuilder.default

/-- Embedding of `FcmClientBuilder::service_account_key_json_path` (`mod.rs` lines 107-110);
named with a `set_` prefix because the Rust method shares its name with the field. -/
def FcmClientBuilder.set_service_account_key_json_path
    (self : FcmClientBuilder) (path : String) : FcmClientBuilder :=
  { self with service_account_key_json_path := some path }

/-- Embedding of `FcmClientBuilder::fcm_request_timeout` (`mod.rs` lines 116-119). -/
def FcmClientBuilder.set_fcm_request_timeout
    (self : FcmClientBuilder) (timeout : Nat) : FcmClientBuilder :=
  { self with fcm_request_timeout := some timeout }

/-- Embedding of `FcmClientBuilder::token_cache_json_path` (`mod.rs` lines 134-137). -/
def FcmClientBuilder.set_token_cache_json_path
    (self : FcmClientBuilder) (path : String) : FcmClientBuilder :=
  { self with token_cache_json_path := some path }

/-- Modelled from the spec: the raw value of the `Retry-After` HTTP header of a failed
response (`internal_client.rs` is not under `src/`).  The header bytes are either not a
valid string, or some string `value`. -/
inductive RetryAfterHeaderValue where
  | invalidString
  | str (value : String)
deriving DecidableEq

/-- Modelled from the spec: parsing of a header string as a non-negative integer count
of seconds (a non-empty string of decimal digits; `internal_client.rs` is not under
`src/`). -/
def parse_nonneg_seconds (s : String) : Option Nat :=
  if s.data ≠ [] ∧ s.data.all (fun c => c.isDigit) then
    some (s.data.foldl (fun n c => n * 10 + (c.toNat - 48)) 0)
  else
    none

/-- Modelled from the spec: parsing of the `Retry-After` header by the request core
(`internal_client.rs` is not under `src/`).  Per the spec the value is either an integer
count of seconds or an HTTP-date requiring a duration-until computation; a malformed value
is a hard error, never defaulted.  HTTP-date parsing (`chrono`) is abstract: the parameter
`parse_http_date` returns the date as a timestamp or a `chrono` parse error, and `now` is
the current timestamp; timestamps are in seconds and the returned wait duration is in
seconds.  The subtraction `(date - now).toNat` clamps a past date to a zero wait. -/
def parse_retry_after {T : Type}
    (parse_http_date : String → Except ChronoParseError Int) (now : Int) :
    RetryAfterHeaderValue → Except (FcmClientError T) Nat
  | .invalidString => .error .RetryAfterHttpHeaderIsNotString
  | .str value =>
    match parse_nonneg_seconds value with
    | some seconds => .ok seconds
    | none =>
      match parse_http_date value with
      | .ok date => .ok (date - now).toNat
      | .error e => .error (.RetryAfterHttpHeaderInvalid e value)

/-- Calls made to the OAuth backend, recorded as a trace so that invariants about
backend construction and reuse can be stated. -/
inductive OauthCall where
  | create (key_path : String) (cache_path : Option String)
  | getAccessToken
deriving DecidableEq

/-- Whether an OAuth backend call is a constructor call (`create_with_key_file`). -/
def OauthCall.isCreate : OauthCall → Bool
  | .create _ _ => true
  | .getAccessToken => false

/-- Modelled from the spec: the environment sources for the service-account key path
(the `GOOGLE_APPLICATION_CREDENTIALS` process environment variable and a `.env` file
read by `dotenvy`); the loading code is not under `src/`. -/
structure Env where
  process_var : Option String
  dotenv_var : Option String

/-- Modelled from the spec: resolution of the service-account key path by
`FcmClientInternal::new_from_builder` (`internal_client.rs` is not under `src/`).
An explicit builder path wins; otherwise the environment variable, optionally sourced
from a `.env` file, is consulted; if no source yields a path the result is the
`Dotenvy` configuration error. -/
def resolve_key_path {T : Type} (env : Env) (b : FcmClientBuilder) :
    Except (FcmClientError T) String :=
  match b.service_account_key_json_path with
  | some path => .ok path
  | none =>
    match env.process_var with
    | some path => .ok path
    | none =>
      match env.dotenv_var with
      | some path => .ok path
      | none => .error (.Dotenvy "GOOGLE_APPLICATION_CREDENTIALS not found")

/-- Embedding of the internal client state: it owns the one OAuth backend instance
and the configured request timeout (`FcmClientInternal<T>` lives in
`internal_client.rs`; its fields are modelled from the spec). -/
structure FcmClientInternal (O : Type) where
  oauth_client : O
  fcm_request_timeout : Option Nat

/-- Embedding of `FcmClient<T>` (`mod.rs` lines 146-149). -/
structure FcmClient (O : Type) where
  internal_client : FcmClientInternal O

/-- Modelled from the spec: `FcmClientInternal::new_from_builder` (`internal_client.rs`
is not under `src/`).  Resolves the key path, then constructs the OAuth backend exactly
once via `create_with_key_file` (abstract; may fail with a backend error `T`).  The
second component records the backend constructor calls performed. -/
def FcmClientInternal.new_from_builder {O T : Type} (env : Env)
    (create_with_key_file : String → Option String → Except T O)
    (b : FcmClientBuilder) :
    Except (FcmClientError T) (FcmClientInternal O) × List OauthCall :=
  match resolve_key_path (T := T) env b with
  | .error e => (.error e, [])
  | .ok key_path =>
    match create_with_key_file key_path b.token_cache_json_path with
    | .error e =>
        (.error (.Oauth e), [.create key_path b.token_cache_json_path])
    | .ok oauth_client =>
        (.ok ⟨oauth_client, b.fcm_request_timeout⟩,
          [.create key_path b.token_cache_json_path])

/-- Embedding of `FcmClientBuilder::build` (`mod.rs` lines 124-128 and 139-143):
wraps `FcmClientInternal::new_from_builder` into the handle, propagating its error. -/
def FcmClientBuilder.build {O T : Type} (env : Env)
    (create_with_key_file : String → Option String → Except T O)
    (b : FcmClientBuilder) :
    Except (FcmClientError T) (FcmClient O) × List OauthCall :=
  match FcmClientInternal.new_from_builder env create_with_key_file b with
  | (.error e, trace) => (.error e, trace)
  | (.ok internal_client, trace) => (.ok ⟨internal_client⟩, trace)

/-- Modelled from the spec: an HTTP response as seen by the request core
(status, optional `Retry-After` header, body). -/
structure HttpResponse where
  status : Nat
  retry_after : Option RetryAfterHeaderValue
  body : String

/-- Modelled from the spec: the structured success response (`response.rs` is not under
`src/`); its contents are opaque to the claims, so only the body is kept. -/
structure FcmResponse where
  body : String
deriving DecidableEq

/-- Outcome of a `send` call: the returned result, the trace of OAuth backend calls,
the number of HTTP requests issued, and the total backoff wait in seconds. -/
structure SendOutcome (T : Type) where
  result : Except (FcmClientError T) FcmResponse
  oauth_calls : List OauthCall
  http_requests : Nat
  total_wait : Nat

/-- Detail string for a generic transport/protocol failure (status and body, per the
spec's "enough detail (status, body) to diagnose"). -/
def httpFailureDetail (r : HttpResponse) : String :=
  "HTTP status " ++ toString r.status ++ ", body: " ++ r.body

/-- Result of classifying one HTTP exchange: either the send is over with a result, or
the server asked for a retry after `wait` seconds. -/
inductive AttemptOutcome (T : Type) where
  | done (result : Except (FcmClientError T) FcmResponse)
  | retryAfter (wait : Nat)

/-- Modelled from the spec: response classification in step 4 of the `send` algorithm
(`internal_client.rs` is not under `src/`).  2xx parses the body into a success
response; 401/403 is an auth failure returned immediately; 429 or 5xx with a
`Retry-After` header is the only retryable case, and a malformed header there is a hard
error; everything else is a generic transport/protocol failure. -/
def classify_response {T : Type}
    (parse_http_date : String → Except ChronoParseError Int) (now : Int)
    (r : HttpResponse) : AttemptOutcome T :=
  if 200 ≤ r.status ∧ r.status ≤ 299 then
    .done (.ok ⟨r.body⟩)
  else if r.status = 401 ∨ r.status = 403 then
    .done (.error (.Reqwest (httpFailureDetail r)))
  else if r.status = 429 ∨ (500 ≤ r.status ∧ r.status ≤ 599) then
    match r.retry_after with
    | none => .done (.error (.Reqwest (httpFailureDetail r)))
    | some header =>
      match parse_retry_after (T := T) parse_http_date now header with
      | .error e => .done (.error e)
      | .ok wait => .retryAfter wait
  else
    .done (.error (.Reqwest (httpFailureDetail r)))

/-- Modelled from the spec: the bounded retry loop of `send` (`internal_client.rs` is
not under `src/`).  Attempt `k` first obtains a token from the owned backend (recorded
in the trace; failure returns the `Oauth` error with no HTTP request made), then issues
request `k` (`http k` is the server's response to it) and classifies the response.  On a
retryable response the loop waits the parsed duration and retries with a fresh token,
up to `fuel` further attempts; with no fuel left the failure is returned. -/
def send_loop {O T : Type} (get_access_token : O → Nat → Except T String)
    (http : Nat → HttpResponse)
    (parse_http_date : String → Except ChronoParseError Int) (now : Int)
    (client : O) : Nat → Nat → SendOutcome T
  | fuel, k =>
    match get_access_token client k with
    | .error e => ⟨.error (.Oauth e), [.getAccessToken], 0, 0⟩
    | .ok _token =>
      match classify_response (T := T) parse_http_date now (http k) with
      | .done result => ⟨result, [.getAccessToken], 1, 0⟩
      | .retryAfter wait =>
        match fuel with
        | 0 => ⟨.error (.Reqwest (httpFailureDetail (http k))), [.getAccessToken], 1, 0⟩
        | fuel' + 1 =>
          let rest :=
            send_loop get_access_token http parse_http_date now client fuel' (k + 1)
          ⟨rest.result, .getAccessToken :: rest.oauth_calls,
            rest.http_requests + 1, rest.total_wait + wait⟩

/-- Modelled from the spec: `FcmClientInternal::send` (`internal_client.rs` is not
under `src/`): runs the retry loop on the owned OAuth backend instance with the bounded
retry budget `retry_limit`. -/
def FcmClientInternal.send {O T : Type} (self : FcmClientInternal O)
    (get_access_token : O → Nat → Except T String) (http : Nat → HttpResponse)
    (parse_http_date : String → Except ChronoParseError Int) (now : Int)
    (retry_limit : Nat) : SendOutcome T :=
  send_loop get_access_token http parse_http_date now self.oauth_client retry_limit 0

/-- Embedding of `FcmClient::send` (`mod.rs` lines 159-161 and 166-168): delegates
entirely to the internal client. -/
def FcmClient.send {O T : Type} (self : FcmClient O)
    (get_access_token : O → Nat → Except T String) (http : Nat → HttpResponse)
    (parse_http_date : String → Except ChronoParseError Int) (now : Int)
    (retry_limit : Nat) : SendOutcome T :=
  self.internal_client.send get_access_token http parse_http_date now retry_limit

end FcmRust

open FcmRust

/-- C1: `is_access_token_missing_even_if_server_requests_completed()` on a client error
returns `true` iff the error is the `Oauth` variant and the wrapped backend error's own
predicate returns `true`; consequently on every other variant (transport, dotenv,
either Retry-After header error) it returns `false`. -/
theorem C1_access_token_predicate {T : Type} (backend_predicate : T → Bool)
    (e : FcmClientError T) :
    e.is_access_token_missing_even_if_server_requests_completed backend_predicate = true ↔
      ∃ t, e = FcmClientError.Oauth t ∧ backend_predicate t = true := by
  cases e with
  | Oauth error =>
      simp [FcmClientError.is_access_token_missing_even_if_server_requests_completed]
  | Reqwest m =>
      simp [FcmClientError.is_access_token_missing_even_if_server_requests_completed]
  | Dotenvy m =>
      simp [FcmClientError.is_access_token_missing_even_if_server_requests_completed]
  | RetryAfterHttpHeaderIsNotString =>
      simp [FcmClientError.is_access_token_missing_even_if_server_requests_completed]
  | RetryAfterHttpHeaderInvalid err v =>
      simp [FcmClientError.is_access_token_missing_even_if_server_requests_completed]

/-- C9: a freshly constructed builder (via `new()` or `default()`) has all three
options unset: no explicit service-account key path, no token-cache path and no
request timeout. -/
theorem C9_fresh_builder_all_unset :
    FcmClientBuilder.new.service_account_key_json_path = none ∧
    FcmClientBuilder.new.token_cache_json_path = none ∧
    FcmClientBuilder.new.fcm_request_timeout = none ∧
    FcmClientBuilder.default.service_account_key_json_path = none ∧
    FcmClientBuilder.default.token_cache_json_path = none ∧
    FcmClientBuilder.default.fcm_request_timeout = none :=
  ⟨rfl, rfl, rfl, rfl, rfl, rfl⟩

/-- C10: each builder configuration method sets only its own field and leaves the other
two fields unchanged. -/
theorem C10_builder_methods_frame (b : FcmClientBuilder) (p : String) (d : Nat) :
    ((b.set_service_account_key_json_path p).service_account_key_json_path = some p ∧
      (b.set_service_account_key_json_path p).token_cache_json_path =
        b.token_cache_json_path ∧
      (b.set_service_account_key_json_path p).fcm_request_timeout =
        b.fcm_request_timeout) ∧
    ((b.set_fcm_request_timeout d).fcm_request_timeout = some d ∧
      (b.set_fcm_request_timeout d).service_account_key_json_path =
        b.service_account_key_json_path ∧
      (b.set_fcm_request_timeout d).token_cache_json_path = b.token_cache_json_path) ∧
    ((b.set_token_cache_json_path p).token_cache_json_path = some p ∧
      (b.set_token_cache_json_path p).service_account_key_json_path =
        b.service_account_key_json_path ∧
      (b.set_token_cache_json_path p).fcm_request_timeout = b.fcm_request_timeout) :=
  ⟨⟨rfl, rfl, rfl⟩, ⟨rfl, rfl, rfl⟩, ⟨rfl, rfl, rfl⟩⟩

/-- A failing `Retry-After` parse yields exactly one of the two header error kinds:
the not-a-valid-string error for invalid header bytes, and the invalid-value error
carrying the parse failure and the raw header value otherwise. -/
theorem parse_retry_after_error_shape {T : Type}
    (parse_http_date : String → Except ChronoParseError Int) (now : Int)
    (header : RetryAfterHeaderValue) (e : FcmClientError T)
    (h : parse_retry_after (T := T) parse_http_date now header = .error e) :
    (header = .invalidString ∧ e = .RetryAfterHttpHeaderIsNotString) ∨
    (∃ pe s, header = .str s ∧ parse_nonneg_seconds s = none ∧
      parse_http_date s = .error pe ∧ e = .RetryAfterHttpHeaderInvalid pe s) := by
  cases header with
  | invalidString =>
    left
    refine ⟨rfl, ?_⟩
    simp only [parse_retry_after, Except.error.injEq] at h
    exact h.symm
  | str s =>
    right
    simp only [parse_retry_after] at h
    cases hn : parse_nonneg_seconds s with
    | some n => rw [hn] at h; simp at h
    | none =>
      rw [hn] at h
      cases hp : parse_http_date s with
      | ok d => rw [hp] at h; simp at h
      | error pe =>
        rw [hp] at h
        simp only [Except.error.injEq] at h
        exact ⟨pe, s, rfl, hn, hp, h.symm⟩

/-- C3: a `Retry-After` header value that is a non-negative integer `n` parses to a wait
of exactly `n` seconds, and classifying a retryable response carrying that header yields
a retry with that exact wait. -/
theorem C3_integer_retry_after_exact_seconds {T : Type}
    (parse_http_date : String → Except ChronoParseError Int) (now : Int)
    (s : String) (n : Nat) (r : HttpResponse)
    (hint : parse_nonneg_seconds s = some n)
    (hstatus : r.status = 429 ∨ (500 ≤ r.status ∧ r.status ≤ 599))
    (hheader : r.retry_after = some (.str s)) :
    parse_retry_after (T := T) parse_http_date now (.str s) = .ok n ∧
    classify_response (T := T) parse_http_date now r = .retryAfter n := by
  have h1 : ¬(200 ≤ r.status ∧ r.status ≤ 299) := by omega
  have h2 : ¬(r.status = 401 ∨ r.status = 403) := by omega
  refine ⟨?_, ?_⟩
  · simp [parse_retry_after, hint]
  · simp [classify_response, h1, h2, hstatus, hheader, parse_retry_after, hint]

/-- Witness for C3 at the concrete header value `"120"`. -/
theorem C3_integer_retry_after_exact_seconds_witness :
    parse_retry_after (T := Unit) (fun _ => .error ⟨"no date"⟩) 0 (.str "120") =
      .ok 120 ∧
    classify_response (T := Unit) (fun _ => .error ⟨"no date"⟩) 0
      ⟨429, some (.str "120"), ""⟩ = .retryAfter 120 :=
  C3_integer_retry_after_exact_seconds (fun _ => .error ⟨"no date"⟩) 0 "120" 120
    ⟨429, some (.str "120"), ""⟩ (by decide) (by decide) rfl

/-- C4: a `Retry-After` header value that is a valid HTTP-date parses to the wait
`(date - now).toNat`, which equals `date - now` when the date is in the future and is
clamped to zero (never negative) when the date is in the past. -/
theorem C4_http_date_retry_after_clamped {T : Type}
    (parse_http_date : String → Except ChronoParseError Int) (now : Int)
    (s : String) (date : Int)
    (hnotint : parse_nonneg_seconds s = none)
    (hdate : parse_http_date s = .ok date) :
    parse_retry_after (T := T) parse_http_date now (.str s) =
      .ok (date - now).toNat ∧
    (now ≤ date → ((date - now).toNat : Int) = date - now) ∧
    (date ≤ now → (date - now).toNat = 0) := by
  refine ⟨by simp [parse_retry_after, hnotint, hdate], fun h => ?_, fun h => ?_⟩
  · omega
  · omega

/-- Witness for C4 at a concrete date string, with the abstract date parser returning
timestamp `10` and `now = 3`. -/
theorem C4_http_date_retry_after_clamped_witness :
    parse_retry_after (T := Unit) (fun _ => .ok 10) 3
      (.str "Thu, 01 Jan 2026 00:00:10 GMT") = .ok ((10 : Int) - 3).toNat ∧
    ((3 : Int) ≤ 10 → ((((10 : Int) - 3).toNat : Int) = 10 - 3)) ∧
    ((10 : Int) ≤ 3 → ((10 : Int) - 3).toNat = 0) :=
  C4_http_date_retry_after_clamped (fun _ => .ok 10) 3
    "Thu, 01 Jan 2026 00:00:10 GMT" 10 (by decide) rfl

/-- C2: a send whose failed (retryable-status) response carries a malformed
`Retry-After` header fails with exactly one of the two header error kinds — the
not-a-valid-string error, or the invalid-value error carrying the raw header string —
after exactly one HTTP request, with no retry and zero wait. -/
theorem C2_malformed_retry_after_is_fatal {O T : Type} (client : FcmClient O)
    (g : O → Nat → Except T String) (http : Nat → HttpResponse)
    (p : String → Except ChronoParseError Int) (now : Int) (retry_limit : Nat)
    (token : String) (header : RetryAfterHeaderValue) (e : FcmClientError T)
    (htoken : g client.internal_client.oauth_client 0 = .ok token)
    (hstatus : (http 0).status = 429 ∨
      (500 ≤ (http 0).status ∧ (http 0).status ≤ 599))
    (hheader : (http 0).retry_after = some header)
    (hparse : parse_retry_after (T := T) p now header = .error e) :
    client.send g http p now retry_limit = ⟨.error e, [.getAccessToken], 1, 0⟩ ∧
    ((header = .invalidString ∧ e = .RetryAfterHttpHeaderIsNotString) ∨
      ∃ pe s, header = .str s ∧ e = .RetryAfterHttpHeaderInvalid pe s) := by
  have h1 : ¬(200 ≤ (http 0).status ∧ (http 0).status ≤ 299) := by omega
  have h2 : ¬((http 0).status = 401 ∨ (http 0).status = 403) := by omega
  constructor
  · rw [FcmClient.send, FcmClientInternal.send, send_loop, htoken]
    simp [classify_response, h1, h2, hstatus, hheader, hparse]
  · rcases parse_retry_after_error_shape p now header e hparse with
      ⟨h3, h4⟩ | ⟨pe, s, h3, _, _, h6⟩
    · exact Or.inl ⟨h3, h4⟩
    · exact Or.inr ⟨pe, s, h3, h6⟩

/-- Witness for C2 at a concrete response with status 429 and a `Retry-After` header
whose bytes are not a valid string. -/
theorem C2_malformed_retry_after_is_fatal_witness :
    FcmClient.send (O := Unit) (T := String) ⟨⟨(), none⟩⟩ (fun _ _ => .ok "token")
      (fun _ => ⟨429, some .invalidString, ""⟩) (fun _ => .error ⟨"bad"⟩) 0 5 =
      ⟨.error .RetryAfterHttpHeaderIsNotString, [.getAccessToken], 1, 0⟩ ∧
    ((RetryAfterHeaderValue.invalidString = .invalidString ∧
        (FcmClientError.RetryAfterHttpHeaderIsNotString : FcmClientError String) =
          .RetryAfterHttpHeaderIsNotString) ∨
      ∃ pe s, RetryAfterHeaderValue.invalidString = .str s ∧
        (FcmClientError.RetryAfterHttpHeaderIsNotString : FcmClientError String) =
          .RetryAfterHttpHeaderInvalid pe s) :=
  C2_malformed_retry_after_is_fatal ⟨⟨(), none⟩⟩ (fun _ _ => .ok "token")
    (fun _ => ⟨429, some .invalidString, ""⟩) (fun _ => .error ⟨"bad"⟩) 0 5
    "token" .invalidString .RetryAfterHttpHeaderIsNotString rfl (by decide) rfl rfl

/-- A retry is signalled by response classification only for a 429 or 5xx status with a
`Retry-After` header that parsed successfully. -/
theorem classify_response_retry_shape {T : Type}
    (p : String → Except ChronoParseError Int) (now : Int) (r : HttpResponse)
    (wait : Nat)
    (h : classify_response (T := T) p now r = .retryAfter wait) :
    (r.status = 429 ∨ (500 ≤ r.status ∧ r.status ≤ 599)) ∧
    ∃ header, r.retry_after = some header ∧
      parse_retry_after (T := T) p now header = .ok wait := by
  unfold classify_response at h
  split at h
  · simp at h
  · split at h
    · simp at h
    · split at h
      · rename_i hretryable
        refine ⟨hretryable, ?_⟩
        split at h
        · simp at h
        · rename_i header hh
          refine ⟨header, hh, ?_⟩
          split at h
          · simp at h
          · rename_i w hw
            simp only [AttemptOutcome.retryAfter.injEq] at h
            rw [hw, h]
      · simp at h

/-- C5: an OAuth token-acquisition failure is returned immediately with no HTTP request
made; a 401/403 response is returned as an auth failure after exactly one request with
no wait; and any send that issues a second request did so only because the previous
response was retryable (429/5xx) with a successfully parsed `Retry-After` header. -/
theorem C5_auth_failures_returned_immediately {O T : Type} (client : FcmClient O)
    (g : O → Nat → Except T String) (http : Nat → HttpResponse)
    (p : String → Except ChronoParseError Int) (now : Int) (retry_limit : Nat) :
    (∀ e, g client.internal_client.oauth_client 0 = .error e →
      client.send g http p now retry_limit =
        ⟨.error (.Oauth e), [.getAccessToken], 0, 0⟩) ∧
    (∀ token, g client.internal_client.oauth_client 0 = .ok token →
      ((http 0).status = 401 ∨ (http 0).status = 403) →
      client.send g http p now retry_limit =
        ⟨.error (.Reqwest (httpFailureDetail (http 0))), [.getAccessToken], 1, 0⟩) ∧
    (∀ fuel k,
      2 ≤ (send_loop g http p now client.internal_client.oauth_client
        fuel k).http_requests →
      ((http k).status = 429 ∨ (500 ≤ (http k).status ∧ (http k).status ≤ 599)) ∧
      ∃ header wait, (http k).retry_after = some header ∧
        parse_retry_after (T := T) p now header = .ok wait) := by
  refine ⟨?_, ?_, ?_⟩
  · intro e he
    rw [FcmClient.send, FcmClientInternal.send, send_loop, he]
  · intro token htoken hauth
    have h1 : ¬(200 ≤ (http 0).status ∧ (http 0).status ≤ 299) := by omega
    rw [FcmClient.send, FcmClientInternal.send, send_loop, htoken]
    simp [classify_response, h1, hauth]
  · intro fuel k h
    rw [send_loop] at h
    cases hg : g client.internal_client.oauth_client k with
    | error e => rw [hg] at h; simp at h
    | ok token =>
      rw [hg] at h
      cases hc : classify_response (T := T) p now (http k) with
      | done result => rw [hc] at h; simp at h
      | retryAfter wait =>
        obtain ⟨hs, header, hh, hp⟩ := classify_response_retry_shape p now (http k)
          wait hc
        exact ⟨hs, header, wait, hh, hp⟩

/-- Witness for C5: a token failure with zero HTTP requests, and a 401 response
returned after exactly one request. -/
theorem C5_auth_failures_returned_immediately_witness :
    FcmClient.send (O := Unit) (T := String) ⟨⟨(), none⟩⟩ (fun _ _ => .error "down")
      (fun _ => ⟨200, none, "ok"⟩) (fun _ => .error ⟨"bad"⟩) 0 5 =
      ⟨.error (.Oauth "down"), [.getAccessToken], 0, 0⟩ ∧
    FcmClient.send (O := Unit) (T := String) ⟨⟨(), none⟩⟩ (fun _ _ => .ok "tok")
      (fun _ => ⟨401, none, "denied"⟩) (fun _ => .error ⟨"bad"⟩) 0 5 =
      ⟨.error (.Reqwest (httpFailureDetail ⟨401, none, "denied"⟩)),
        [.getAccessToken], 1, 0⟩ :=
  ⟨(C5_auth_failures_returned_immediately ⟨⟨(), none⟩⟩ (fun _ _ => .error "down")
      (fun _ => ⟨200, none, "ok"⟩) (fun _ => .error ⟨"bad"⟩) 0 5).1 "down" rfl,
   (C5_auth_failures_returned_immediately ⟨⟨(), none⟩⟩ (fun _ _ => .ok "tok")
      (fun _ => ⟨401, none, "denied"⟩) (fun _ => .error ⟨"bad"⟩) 0 5).2.1 "tok" rfl
      (by decide)⟩

/-- The retry loop issues at most `fuel + 1` HTTP requests. -/
theorem send_loop_http_requests_le {O T : Type} (g : O → Nat → Except T String)
    (http : Nat → HttpResponse) (p : String → Except ChronoParseError Int)
    (now : Int) (client : O) (fuel k : Nat) :
    (send_loop g http p now client fuel k).http_requests ≤ fuel + 1 := by
  induction fuel generalizing k with
  | zero =>
    rw [send_loop]
    cases hg : g client k with
    | error e => simp
    | ok t =>
      cases hc : classify_response (T := T) p now (http k) with
      | done res => simp
      | retryAfter w => simp
  | succ n ih =>
    rw [send_loop]
    cases hg : g client k with
    | error e => simp
    | ok t =>
      cases hc : classify_response (T := T) p now (http k) with
      | done res => simp
      | retryAfter w =>
        simp only
        have := ih (k + 1)
        omega

/-- C6: the retry loop is bounded: a send with retry budget `retry_limit` issues at most
`retry_limit + 1` HTTP requests, and against a server whose every response classifies as
retryable the send still terminates, returning an error. -/
theorem C6_send_bounded_attempts {O T : Type} (client : FcmClient O)
    (g : O → Nat → Except T String) (http : Nat → HttpResponse)
    (p : String → Except ChronoParseError Int) (now : Int) (retry_limit : Nat) :
    (client.send g http p now retry_limit).http_requests ≤ retry_limit + 1 ∧
    ((∀ k, ∃ wait, classify_response (T := T) p now (http k) = .retryAfter wait) →
      ∃ e, (client.send g http p now retry_limit).result = .error e) := by
  constructor
  · exact send_loop_http_requests_le g http p now client.internal_client.oauth_client
      retry_limit 0
  · intro hall
    suffices h : ∀ fuel k, ∃ e,
        (send_loop g http p now client.internal_client.oauth_client fuel k).result =
          .error e from h retry_limit 0
    intro fuel k
    induction fuel generalizing k with
    | zero =>
      rw [send_loop]
      cases hg : g client.internal_client.oauth_client k with
      | error e => exact ⟨.Oauth e, by simp⟩
      | ok t =>
        obtain ⟨w, hw⟩ := hall k
        rw [hw]
        exact ⟨.Reqwest (httpFailureDetail (http k)), by simp⟩
    | succ n ih =>
      rw [send_loop]
      cases hg : g client.internal_client.oauth_client k with
      | error e => exact ⟨.Oauth e, by simp⟩
      | ok t =>
        obtain ⟨w, hw⟩ := hall k
        rw [hw]
        obtain ⟨e, he⟩ := ih (k + 1)
        exact ⟨e, by simpa using he⟩

/-- Witness for C6: a server that always answers 429 with `Retry-After: 1` and a retry
budget of 2; the send performs at most 3 requests and returns an error. -/
theorem C6_send_bounded_attempts_witness :
    (FcmClient.send (O := Unit) (T := String) ⟨⟨(), none⟩⟩ (fun _ _ => .ok "tok")
        (fun _ => ⟨429, some (.str "1"), ""⟩)
        (fun _ => .error ⟨"bad"⟩) 0 2).http_requests ≤ 2 + 1 ∧
    ∃ e, (FcmClient.send (O := Unit) (T := String) ⟨⟨(), none⟩⟩ (fun _ _ => .ok "tok")
        (fun _ => ⟨429, some (.str "1"), ""⟩)
        (fun _ => .error ⟨"bad"⟩) 0 2).result = .error e :=
  ⟨(C6_send_bounded_attempts ⟨⟨(), none⟩⟩ (fun _ _ => .ok "tok")
      (fun _ => ⟨429, some (.str "1"), ""⟩) (fun _ => .error ⟨"bad"⟩) 0 2).1,
   (C6_send_bounded_attempts ⟨⟨(), none⟩⟩ (fun _ _ => .ok "tok")
      (fun _ => ⟨429, some (.str "1"), ""⟩) (fun _ => .error ⟨"bad"⟩) 0 2).2
      (fun _ => ⟨1, rfl⟩)⟩

/-- Response classification never produces the `Dotenvy` configuration error. -/
theorem classify_response_no_dotenvy {T : Type}
    (p : String → Except ChronoParseError Int) (now : Int) (r : HttpResponse)
    (msg : String)
    (h : classify_response (T := T) p now r = .done (.error (.Dotenvy msg))) :
    False := by
  unfold classify_response at h
  split at h
  · simp at h
  · split at h
    · simp at h
    · split at h
      · split at h
        · simp at h
        · rename_i header hh
          split at h
          · rename_i e he
            simp only [AttemptOutcome.done.injEq, Except.error.injEq] at h
            rcases parse_retry_after_error_shape p now header e he with
              ⟨_, h4⟩ | ⟨pe, s, _, _, _, h6⟩
            · rw [h4] at h; exact FcmClientError.noConfusion h
            · rw [h6] at h; exact FcmClientError.noConfusion h
          · simp at h
      · simp at h

/-- The send loop never returns the `Dotenvy` configuration error. -/
theorem send_loop_result_not_dotenvy {O T : Type} (g : O → Nat → Except T String)
    (http : Nat → HttpResponse) (p : String → Except ChronoParseError Int)
    (now : Int) (client : O) (msg : String) (fuel k : Nat) :
    (send_loop g http p now client fuel k).result ≠ .error (.Dotenvy msg) := by
  induction fuel generalizing k with
  | zero =>
    rw [send_loop]
    cases hg : g client k with
    | error e => simp
    | ok t =>
      cases hc : classify_response (T := T) p now (http k) with
      | done res =>
        simp only
        intro hres
        rw [hres] at hc
        exact classify_response_no_dotenvy p now (http k) msg hc
      | retryAfter w => simp
  | succ n ih =>
    rw [send_loop]
    cases hg : g client k with
    | error e => simp
    | ok t =>
      cases hc : classify_response (T := T) p now (http k) with
      | done res =>
        simp only
        intro hres
        rw [hres] at hc
        exact classify_response_no_dotenvy p now (http k) msg hc
      | retryAfter w =>
        simp only
        exact ih (k + 1)

/-- C7: when the builder has no explicit key path, the environment variable is unset and
the `.env` file yields nothing, `build()` fails with the classified `Dotenvy`
configuration error (and an empty backend trace, so no client is produced); and no send
ever surfaces a `Dotenvy` configuration error. -/
theorem C7_config_errors_surface_at_build {O T : Type} (env : Env)
    (create_with_key_file : String → Option String → Except T O)
    (b : FcmClientBuilder) :
    (b.service_account_key_json_path = none → env.process_var = none →
      env.dotenv_var = none →
      FcmClientBuilder.build env create_with_key_file b =
        (.error (.Dotenvy "GOOGLE_APPLICATION_CREDENTIALS not found"), [])) ∧
    (∀ (client : FcmClient O) (g : O → Nat → Except T String)
      (http : Nat → HttpResponse) (p : String → Except ChronoParseError Int)
      (now : Int) (retry_limit : Nat) (msg : String),
      (client.send g http p now retry_limit).result ≠ .error (.Dotenvy msg)) := by
  constructor
  · intro h1 h2 h3
    simp [FcmClientBuilder.build, FcmClientInternal.new_from_builder,
      resolve_key_path, h1, h2, h3]
  · intro client g http p now retry_limit msg
    exact send_loop_result_not_dotenvy g http p now
      client.internal_client.oauth_client msg retry_limit 0

/-- Witness for C7: the all-unset configuration makes `build()` fail with the `Dotenvy`
error, and a concrete send never returns a `Dotenvy` error. -/
theorem C7_config_errors_surface_at_build_witness :
    FcmClientBuilder.build (O := Unit) (T := String) ⟨none, none⟩
      (fun _ _ => .ok ()) FcmClientBuilder.new =
      (.error (.Dotenvy "GOOGLE_APPLICATION_CREDENTIALS not found"), []) ∧
    (FcmClient.send (O := Unit) (T := String) ⟨⟨(), none⟩⟩ (fun _ _ => .ok "tok")
      (fun _ => ⟨200, none, "ok"⟩) (fun _ => .error ⟨"bad"⟩) 0 3).result ≠
      .error (.Dotenvy "any") :=
  ⟨(C7_config_errors_surface_at_build ⟨none, none⟩ (fun _ _ => .ok ())
      FcmClientBuilder.new).1 rfl rfl rfl,
   (C7_config_errors_surface_at_build ⟨none, none⟩ (fun _ _ => .ok ())
      FcmClientBuilder.new).2 ⟨⟨(), none⟩⟩ (fun _ _ => .ok "tok")
      (fun _ => ⟨200, none, "ok"⟩) (fun _ => .error ⟨"bad"⟩) 0 3 "any"⟩

/-- The send loop performs no OAuth backend constructor call. -/
theorem send_loop_no_create {O T : Type} (g : O → Nat → Except T String)
    (http : Nat → HttpResponse) (p : String → Except ChronoParseError Int)
    (now : Int) (client : O) (fuel k : Nat) :
    ((send_loop g http p now client fuel k).oauth_calls.countP
      (fun c => c.isCreate)) = 0 := by
  induction fuel generalizing k with
  | zero =>
    rw [send_loop]
    cases hg : g client k with
    | error e => simp [List.countP, List.countP.go, OauthCall.isCreate]
    | ok t =>
      cases hc : classify_response (T := T) p now (http k) with
      | done res => simp [List.countP, List.countP.go, OauthCall.isCreate]
      | retryAfter w => simp [List.countP, List.countP.go, OauthCall.isCreate]
  | succ n ih =>
    rw [send_loop]
    cases hg : g client k with
    | error e => simp [List.countP, List.countP.go, OauthCall.isCreate]
    | ok t =>
      cases hc : classify_response (T := T) p now (http k) with
      | done res => simp [List.countP, List.countP.go, OauthCall.isCreate]
      | retryAfter w =>
        simp only [List.countP_cons]
        rw [ih (k + 1)]
        simp [OauthCall.isCreate]

/-- C8: a successful `build()` performs exactly one OAuth backend constructor call, the
handle holds exactly the backend instance that call produced, and no send ever performs
a constructor call (every send reuses the handle's instance). -/
theorem C8_single_oauth_client_per_handle {O T : Type} (env : Env)
    (create_with_key_file : String → Option String → Except T O)
    (b : FcmClientBuilder) :
    (∀ handle trace,
      FcmClientBuilder.build env create_with_key_file b = (.ok handle, trace) →
      trace.countP (fun c => c.isCreate) = 1 ∧
      ∃ key_path, resolve_key_path (T := T) env b = .ok key_path ∧
        create_with_key_file key_path b.token_cache_json_path =
          .ok handle.internal_client.oauth_client ∧
        trace = [.create key_path b.token_cache_json_path]) ∧
    (∀ (client : FcmClient O) (g : O → Nat → Except T String)
      (http : Nat → HttpResponse) (p : String → Except ChronoParseError Int)
      (now : Int) (retry_limit : Nat),
      ((client.send g http p now retry_limit).oauth_calls.countP
        (fun c => c.isCreate)) = 0) := by
  constructor
  · intro handle trace hb
    cases hr : resolve_key_path (T := T) env b with
    | error e =>
      have hbuild : FcmClientBuilder.build env create_with_key_file b =
          (.error e, []) := by
        simp [FcmClientBuilder.build, FcmClientInternal.new_from_builder, hr]
      rw [hbuild] at hb
      simp at hb
    | ok key_path =>
      cases hc : create_with_key_file key_path b.token_cache_json_path with
      | error e =>
        have hbuild : FcmClientBuilder.build env create_with_key_file b =
            (.error (.Oauth e), [.create key_path b.token_cache_json_path]) := by
          simp [FcmClientBuilder.build, FcmClientInternal.new_from_builder, hr, hc]
        rw [hbuild] at hb
        simp at hb
      | ok o =>
        have hbuild : FcmClientBuilder.build env create_with_key_file b =
            (.ok ⟨⟨o, b.fcm_request_timeout⟩⟩,
              [.create key_path b.token_cache_json_path]) := by
          simp [FcmClientBuilder.build, FcmClientInternal.new_from_builder, hr, hc]
        rw [hbuild] at hb
        simp only [Prod.mk.injEq, Except.ok.injEq] at hb
        obtain ⟨hhandle, htrace⟩ := hb
        refine ⟨?_, key_path, rfl, ?_, htrace.symm⟩
        · rw [← htrace]; simp [List.countP, List.countP.go, OauthCall.isCreate]
        · rw [← hhandle]; exact hc
  · intro client g http p now retry_limit
    exact send_loop_no_create g http p now client.internal_client.oauth_client
      retry_limit 0

/-- Witness for C8: a concrete successful build performs exactly one constructor call
and yields the created instance, and a concrete send performs none. -/
theorem C8_single_oauth_client_per_handle_witness :
    ([OauthCall.create "key.json" none].countP (fun c => c.isCreate) = 1 ∧
      ∃ key_path,
        resolve_key_path (T := String) ⟨some "key.json", none⟩
          FcmClientBuilder.new = .ok key_path ∧
        (fun (_ : String) (_ : Option String) => (.ok () : Except String Unit))
          key_path FcmClientBuilder.new.token_cache_json_path =
          .ok (FcmClient.internal_client
            (⟨⟨(), none⟩⟩ : FcmClient Unit)).oauth_client ∧
        [OauthCall.create "key.json" none] =
          [.create key_path FcmClientBuilder.new.token_cache_json_path]) ∧
    ((FcmClient.send (O := Unit) (T := String) ⟨⟨(), none⟩⟩ (fun _ _ => .ok "tok")
      (fun _ => ⟨500, some (.str "2"), "busy"⟩) (fun _ => .error ⟨"bad"⟩) 0
      4).oauth_calls.countP (fun c => c.isCreate)) = 0 :=
  ⟨(C8_single_oauth_client_per_handle ⟨some "key.json", none⟩
      (fun _ _ => (.ok () : Except String Unit)) FcmClientBuilder.new).1
      ⟨⟨(), none⟩⟩ [.create "key.json" none] rfl,
   (C8_single_oauth_client_per_handle ⟨some "key.json", none⟩
      (fun _ _ => (.ok () : Except String Unit)) FcmClientBuilder.new).2
      ⟨⟨(), none⟩⟩ (fun _ _ => .ok "tok")
      (fun _ => ⟨500, some (.str "2"), "busy"⟩) (fun _ => .error ⟨"bad"⟩) 0 4⟩
